import Mathlib

/-!
Verification of the financial scenario projection engine of the
Profitibility-Calculator repository.

The engine lives in two places in the source:
* the server-side authoritative computation in the POST /api/analysis
  handler of src/server/routes.ts (lines 549-623), and
* the client-side preview functions calculateFinancialMetrics,
  generateMonthlyProjections and generateCostBreakdown in the shared
  calculation module (src/unnamed/part_001).

Both are embedded here, separately and faithfully, over an idealized
JavaScript numeric domain: a finite value is an exact rational (the spec,
section 6, states all numeric fields arrive as decimal-precise values),
and the special values NaN, +Infinity, -Infinity produced by division are
represented explicitly, with JavaScript arithmetic semantics on the
special values.  toFixed(d) followed by parseFloat is modelled as exact
rounding to d decimal places (round half toward larger, per the ECMA
specification of Number.prototype.toFixed), the identity on NaN and
plus or minus Infinity (parseFloat of the strings NaN / Infinity).
-/

/-- A JavaScript number in the decimal-precise idealization: an exact
rational, or one of the special values NaN, +Infinity, -Infinity. -/
inductive JsNum where
  | fin (q : ℚ)
  | nan
  | inf
  | neginf
deriving DecidableEq, Repr

namespace JsNum

/-- JavaScript addition on the idealized domain. -/
def add : JsNum → JsNum → JsNum
  | nan, _ => nan
  | _, nan => nan
  | inf, neginf => nan
  | neginf, inf => nan
  | inf, _ => inf
  | _, inf => inf
  | neginf, _ => neginf
  | _, neginf => neginf
  | fin a, fin b => fin (a + b)

/-- JavaScript negation. -/
def neg : JsNum → JsNum
  | nan => nan
  | inf => neginf
  | neginf => inf
  | fin a => fin (-a)

/-- JavaScript subtraction. -/
def sub (x y : JsNum) : JsNum := add x (neg y)

/-- JavaScript multiplication on the idealized domain (Infinity times
zero is NaN). -/
def mul : JsNum → JsNum → JsNum
  | nan, _ => nan
  | _, nan => nan
  | fin a, fin b => fin (a * b)
  | inf, inf => inf
  | inf, neginf => neginf
  | neginf, inf => neginf
  | neginf, neginf => inf
  | inf, fin b => if 0 < b then inf else if b < 0 then neginf else nan
  | fin a, inf => if 0 < a then inf else if a < 0 then neginf else nan
  | neginf, fin b => if 0 < b then neginf else if b < 0 then inf else nan
  | fin a, neginf => if 0 < a then neginf else if a < 0 then inf else nan

/-- JavaScript division on the idealized domain: a nonzero finite value
divided by zero gives a signed infinity, zero divided by zero gives NaN
(the idealization has no signed zero, matching the decimal-precise data
domain of the spec). -/
def div : JsNum → JsNum → JsNum
  | nan, _ => nan
  | _, nan => nan
  | fin a, fin b =>
      if b = 0 then (if 0 < a then inf else if a < 0 then neginf else nan)
      else fin (a / b)
  | fin _, inf => fin 0
  | fin _, neginf => fin 0
  | inf, fin b => if b < 0 then neginf else inf
  | neginf, fin b => if b < 0 then inf else neginf
  | inf, inf => nan
  | inf, neginf => nan
  | neginf, inf => nan
  | neginf, neginf => nan

instance : Add JsNum := ⟨add⟩
instance : Sub JsNum := ⟨sub⟩
instance : Mul JsNum := ⟨mul⟩
instance : Div JsNum := ⟨div⟩
instance : Neg JsNum := ⟨neg⟩

/-- parseFloat(x.toFixed(d)): rounds a finite value to d decimal places
(ties toward the larger integer numerator, per ECMA toFixed), and is the
identity on the special values. -/
def toFixed (d : ℕ) : JsNum → JsNum
  | fin q => fin ((⌊q * 10 ^ d + 1 / 2⌋ : ℚ) / (10 ^ d : ℚ))
  | nan => nan
  | inf => inf
  | neginf => neginf

/-- Is the value finite (neither NaN nor an infinity)? -/
def isFinite : JsNum → Bool
  | fin _ => true
  | _ => false

/-- Is the value strictly negative (a negative finite value or
-Infinity)?  NaN is not negative. -/
def isNeg : JsNum → Bool
  | fin q => decide (q < 0)
  | neginf => true
  | _ => false

/-- Is the value strictly positive (a positive finite value or
+Infinity)?  NaN is not positive. -/
def isPos : JsNum → Bool
  | fin q => decide (0 < q)
  | inf => true
  | _ => false

end JsNum

/-- Risk classification attached to a scenario's metrics. -/
inductive RiskLevel where
  | Low
  | Medium
  | High
deriving DecidableEq, Repr

/-- The project row consumed by the engine (src/unnamed/part_009, table
projects), restricted to the fields the calculations read.  The numeric
columns are stored as decimal strings and read through Number(); in the
decimal-precise idealization they appear directly as JsNum values.
timeHorizon is carried on the row but never read by the engine. -/
structure Project where
  initialInvestment : JsNum
  monthlyFixedCosts : JsNum
  variableCosts : JsNum
  expectedMonthlyRevenue : JsNum
  timeHorizon : Int
deriving DecidableEq, Repr

/-- A scenario row (src/unnamed/part_009, table scenarios), restricted to
the fields the calculations read. -/
structure Scenario where
  name : String
  enabled : Bool
  growthRate : JsNum
  costAdjustment : JsNum
deriving DecidableEq, Repr

/-- FinancialCalculation output record (shared schema). -/
structure FinancialCalculation where
  roi : JsNum
  breakEven : JsNum
  netProfit : JsNum
  profitMargin : JsNum
  riskLevel : RiskLevel
deriving DecidableEq, Repr

/-- One MonthlyProjection entry (shared schema). -/
structure MonthlyProjection where
  month : ℕ
  revenue : JsNum
  expenses : JsNum
  profit : JsNum
deriving DecidableEq, Repr

/-- Cost breakdown record, as built by both the route handler and the
client generateCostBreakdown. -/
structure CostBreakdown where
  initialInvestment : JsNum
  fixedCosts : JsNum
  variableCosts : JsNum
deriving DecidableEq, Repr

/-- Per-scenario result triple in the analysis bundle. -/
structure ScenarioCalculation where
  scenario : Scenario
  financialMetrics : FinancialCalculation
  monthlyProjections : List MonthlyProjection
deriving DecidableEq, Repr

/-- The analysis bundle assembled by POST /api/analysis: the per-scenario
calculations plus the project-level cost breakdown (the AI-generated
recommendation strings are outside the engine and omitted). -/
structure AnalysisBundle where
  scenarios : List ScenarioCalculation
  costBreakdown : CostBreakdown
deriving DecidableEq, Repr

namespace Server

/-- The three adjusted const values computed at the top of the scenario
map in routes.ts lines 553-560: growthMultiplier and costMultiplier
applied to the base figures. -/
structure AdjustedFigures where
  adjustedMonthlyRevenue : JsNum
  adjustedMonthlyFixedCosts : JsNum
  adjustedVariableCosts : JsNum
deriving DecidableEq, Repr

/-- routes.ts lines 553-560: adjust values based on scenario parameters. -/
def adjustFigures (project : Project) (scenario : Scenario) : AdjustedFigures :=
  let growthMultiplier := JsNum.fin 1 + scenario.growthRate / JsNum.fin 100
  let costMultiplier := JsNum.fin 1 + scenario.costAdjustment / JsNum.fin 100
  { adjustedMonthlyRevenue := project.expectedMonthlyRevenue * growthMultiplier
    adjustedMonthlyFixedCosts := project.monthlyFixedCosts * costMultiplier
    adjustedVariableCosts := project.variableCosts * costMultiplier }

/-- routes.ts lines 590-603: the 12-entry monthly projection list built
with Array.from of length 12 from the adjusted figures. -/
def monthlyProjectionsOf (a : AdjustedFigures) : List MonthlyProjection :=
  (List.range 12).map fun (i : ℕ) =>
    let monthRevenue := a.adjustedMonthlyRevenue * JsNum.fin (1 + 2 / 100 * (i : ℚ))
    let monthExpenses := a.adjustedMonthlyFixedCosts +
      (a.adjustedVariableCosts / JsNum.fin 100) * monthRevenue
    let monthProfit := monthRevenue - monthExpenses
    { month := i + 1
      revenue := monthRevenue.toFixed 2
      expenses := monthExpenses.toFixed 2
      profit := monthProfit.toFixed 2 }

/-- routes.ts lines 552-616: the body of the scenario map in
POST /api/analysis, producing one ScenarioCalculation. -/
def scenarioCalculation (project : Project) (scenario : Scenario) : ScenarioCalculation :=
  let a := adjustFigures project scenario
  let annualRevenue := a.adjustedMonthlyRevenue * JsNum.fin 12
  let annualFixedCosts := a.adjustedMonthlyFixedCosts * JsNum.fin 12
  let annualVariableCosts := (a.adjustedVariableCosts / JsNum.fin 100) * annualRevenue
  let totalAnnualCosts := annualFixedCosts + annualVariableCosts
  let annualProfit := annualRevenue - totalAnnualCosts
  let roi := (annualProfit / project.initialInvestment) * JsNum.fin 100
  let monthlyProfit := a.adjustedMonthlyRevenue - a.adjustedMonthlyFixedCosts -
    (a.adjustedVariableCosts / JsNum.fin 100) * a.adjustedMonthlyRevenue
  let breakEven := project.initialInvestment / monthlyProfit
  let profitMargin := (annualProfit / annualRevenue) * JsNum.fin 100
  let riskLevel :=
    if scenario.name = "Optimistic" then RiskLevel.Low
    else if scenario.name = "Realistic" then RiskLevel.Medium
    else RiskLevel.High
  { scenario := scenario
    financialMetrics :=
      { roi := roi.toFixed 1
        breakEven := breakEven.toFixed 1
        netProfit := annualProfit.toFixed 2
        profitMargin := profitMargin.toFixed 1
        riskLevel := riskLevel }
    monthlyProjections := monthlyProjectionsOf a }

/-- routes.ts lines 618-623: the cost breakdown, computed once per
project from the base (unadjusted) inputs. -/
def costBreakdown (project : Project) : CostBreakdown :=
  { initialInvestment := project.initialInvestment
    fixedCosts := project.monthlyFixedCosts * JsNum.fin 12
    variableCosts := project.expectedMonthlyRevenue * (project.variableCosts / JsNum.fin 100) * JsNum.fin 12 }

/-- The analysis bundle assembled by POST /api/analysis from the project
row and its scenario rows: the handler maps the calculation over
projectWithScenarios.scenarios (routes.ts line 552) and attaches the
cost breakdown.  DatabaseStorage.getProjectWithScenarios returns every
scenario row of the project (storage.ts lines 170-180). -/
def analysisBundle (project : Project) (scenarios : List Scenario) : AnalysisBundle :=
  { scenarios := scenarios.map (scenarioCalculation project)
    costBreakdown := costBreakdown project }

end Server

namespace Client

/-- src/unnamed/part_001, calculateFinancialMetrics: the client-side
preview computation of the financial metrics for one scenario.  It
re-derives the adjusted figures itself from the project and scenario. -/
def calculateFinancialMetrics (project : Project) (scenario : Scenario) : FinancialCalculation :=
  let growthMultiplier := JsNum.fin 1 + scenario.growthRate / JsNum.fin 100
  let costMultiplier := JsNum.fin 1 + scenario.costAdjustment / JsNum.fin 100
  let adjustedMonthlyRevenue := project.expectedMonthlyRevenue * growthMultiplier
  let adjustedMonthlyFixedCosts := project.monthlyFixedCosts * costMultiplier
  let adjustedVariableCosts := project.variableCosts * costMultiplier
  let annualRevenue := adjustedMonthlyRevenue * JsNum.fin 12
  let annualFixedCosts := adjustedMonthlyFixedCosts * JsNum.fin 12
  let annualVariableCosts := (adjustedVariableCosts / JsNum.fin 100) * annualRevenue
  let totalAnnualCosts := annualFixedCosts + annualVariableCosts
  let annualProfit := annualRevenue - totalAnnualCosts
  let roi := (annualProfit / project.initialInvestment) * JsNum.fin 100
  let monthlyProfit := adjustedMonthlyRevenue - adjustedMonthlyFixedCosts -
    (adjustedVariableCosts / JsNum.fin 100) * adjustedMonthlyRevenue
  let breakEven := project.initialInvestment / monthlyProfit
  let profitMargin := (annualProfit / annualRevenue) * JsNum.fin 100
  let riskLevel :=
    if scenario.name = "Optimistic" then RiskLevel.Low
    else if scenario.name = "Realistic" then RiskLevel.Medium
    else RiskLevel.High
  { roi := roi.toFixed 1
    breakEven := breakEven.toFixed 1
    netProfit := annualProfit.toFixed 2
    profitMargin := profitMargin.toFixed 1
    riskLevel := riskLevel }

/-- src/unnamed/part_001, generateMonthlyProjections: the client-side
preview of the 12 monthly projections for one scenario. -/
def generateMonthlyProjections (project : Project) (scenario : Scenario) : List MonthlyProjection :=
  let growthMultiplier := JsNum.fin 1 + scenario.growthRate / JsNum.fin 100
  let costMultiplier := JsNum.fin 1 + scenario.costAdjustment / JsNum.fin 100
  let adjustedMonthlyRevenue := project.expectedMonthlyRevenue * growthMultiplier
  let adjustedMonthlyFixedCosts := project.monthlyFixedCosts * costMultiplier
  let adjustedVariableCosts := project.variableCosts * costMultiplier
  (List.range 12).map fun (i : ℕ) =>
    let monthRevenue := adjustedMonthlyRevenue * JsNum.fin (1 + 2 / 100 * (i : ℚ))
    let monthExpenses := adjustedMonthlyFixedCosts +
      (adjustedVariableCosts / JsNum.fin 100) * monthRevenue
    let monthProfit := monthRevenue - monthExpenses
    { month := i + 1
      revenue := monthRevenue.toFixed 2
      expenses := monthExpenses.toFixed 2
      profit := monthProfit.toFixed 2 }

/-- src/unnamed/part_001, generateCostBreakdown: the client-side cost
breakdown, computed from the base project figures only. -/
def generateCostBreakdown (project : Project) : CostBreakdown :=
  { initialInvestment := project.initialInvestment
    fixedCosts := project.monthlyFixedCosts * JsNum.fin 12
    variableCosts := project.expectedMonthlyRevenue * (project.variableCosts / JsNum.fin 100) * JsNum.fin 12 }

end Client

/-- A project record as seen at the calculation boundary before the
Number() coercions, with numeric fields that may be structurally absent
(reading an absent JavaScript property yields undefined). -/
structure RawProject where
  initialInvestment : Option JsNum
  monthlyFixedCosts : Option JsNum
  variableCosts : Option JsNum
  expectedMonthlyRevenue : Option JsNum
deriving DecidableEq, Repr

/-- A scenario record at the calculation boundary before the Number()
coercions, with numeric fields that may be structurally absent. -/
structure RawScenario where
  name : String
  growthRate : Option JsNum
  costAdjustment : Option JsNum
deriving DecidableEq, Repr

/-- The Number() coercion applied by the engine at every field read:
Number(undefined) is NaN, a resolved numeric value passes through. -/
def jsNumber : Option JsNum → JsNum
  | none => JsNum.nan
  | some x => x

/-- The engine applied to possibly-absent inputs: every numeric field is
read through Number() (part_001 lines 266-290 and routes.ts lines
549-573 wrap every field access in Number(...)), so an absent field
enters the arithmetic as NaN.  The computation is a total function — no
code path in calculateFinancialMetrics or in the route handler throws on
a missing numeric field. -/
def calculateFinancialMetricsRaw (p : RawProject) (s : RawScenario) : FinancialCalculation :=
  Client.calculateFinancialMetrics
    { initialInvestment := jsNumber p.initialInvestment
      monthlyFixedCosts := jsNumber p.monthlyFixedCosts
      variableCosts := jsNumber p.variableCosts
      expectedMonthlyRevenue := jsNumber p.expectedMonthlyRevenue
      timeHorizon := 12 }
    { name := s.name
      enabled := true
      growthRate := jsNumber s.growthRate
      costAdjustment := jsNumber s.costAdjustment }

/-- The stored project row, restricted to the columns
DatabaseStorage.updateProject writes (numeric columns are text in the
database; id, userId and the timestamps are outside the model). -/
structure StoredProject where
  name : String
  goal : String
  timeHorizon : Int
  industry : String
  initialInvestment : String
  monthlyFixedCosts : String
  variableCosts : String
  expectedMonthlyRevenue : String
deriving DecidableEq, Repr

/-- A Partial-Project update payload: every field may be omitted. -/
structure ProjectUpdate where
  name : Option String
  goal : Option String
  timeHorizon : Option Int
  industry : Option String
  initialInvestment : Option String
  monthlyFixedCosts : Option String
  variableCosts : Option String
  expectedMonthlyRevenue : Option String
deriving DecidableEq, Repr

/-- The JavaScript a-or-else-b idiom used for the string fields of
transformProjectData: an absent or empty (falsy) string falls back to
the default. -/
def jsOrElse (x : Option String) (dflt : String) : String :=
  match x with
  | some s => if s = "" then dflt else s
  | none => dflt

/-- src/unnamed/part_009 lines 41-75, transformProjectData: builds a
complete record, substituting defaults for every absent field
(name, goal, industry fall back through the falsy-or idiom; timeHorizon
to 12; the numeric text columns to "0"). -/
def transformProjectData (data : ProjectUpdate) : StoredProject :=
  { name := jsOrElse data.name "Untitled Project"
    goal := jsOrElse data.goal "No goal specified"
    industry := jsOrElse data.industry "Other"
    timeHorizon := data.timeHorizon.getD 12
    initialInvestment := data.initialInvestment.getD "0"
    monthlyFixedCosts := data.monthlyFixedCosts.getD "0"
    variableCosts := data.variableCosts.getD "0"
    expectedMonthlyRevenue := data.expectedMonthlyRevenue.getD "0" }

/-- src/server/storage.ts lines 79-91, DatabaseStorage.updateProject:
the row is overwritten with every field of transformProjectData(update)
(the .set spreads the whole transformed record), so the previously
stored values of the modelled columns are never consulted. -/
def updateProject (stored : StoredProject) (upd : ProjectUpdate) : StoredProject :=
  let _ := stored
  transformProjectData upd

/-- The stored scenario row, restricted to the columns
DatabaseStorage.updateScenario writes. -/
structure StoredScenario where
  name : String
  enabled : Bool
  growthRate : String
  costAdjustment : String
deriving DecidableEq, Repr

/-- A Partial-Scenario update payload. -/
structure ScenarioUpdate where
  name : Option String
  enabled : Option Bool
  growthRate : Option String
  costAdjustment : Option String
deriving DecidableEq, Repr

/-- The output of transformScenarioData: name and enabled present only
when supplied, growthRate and costAdjustment always present. -/
structure TransformedScenario where
  name : Option String
  enabled : Option Bool
  growthRate : String
  costAdjustment : String
deriving DecidableEq, Repr

/-- src/unnamed/part_009 lines 95-120, transformScenarioData: copies
name and enabled only when defined, but unconditionally emits growthRate
and costAdjustment, substituting "0" when absent. -/
def transformScenarioData (data : ScenarioUpdate) : TransformedScenario :=
  { name := data.name
    enabled := data.enabled
    growthRate := data.growthRate.getD "0"
    costAdjustment := data.costAdjustment.getD "0" }

/-- src/server/storage.ts lines 132-159, DatabaseStorage.updateScenario:
builds updateObj from the defined fields of transformScenarioData(upd)
and applies it over the stored row.  Because transformScenarioData
always emits growthRate and costAdjustment, updateObj always has at
least those two keys, so the Object.keys(updateObj).length === 0 early
return in the source is unreachable and the update always proceeds. -/
def updateScenario (stored : StoredScenario) (upd : ScenarioUpdate) : StoredScenario :=
  let t := transformScenarioData upd
  { name := t.name.getD stored.name
    enabled := t.enabled.getD stored.enabled
    growthRate := t.growthRate
    costAdjustment := t.costAdjustment }

/-- The worked project of the spec's concrete scenarios. -/
def exampleProject : Project :=
  { initialInvestment := JsNum.fin 50000
    monthlyFixedCosts := JsNum.fin 5000
    variableCosts := JsNum.fin 20
    expectedMonthlyRevenue := JsNum.fin 15000
    timeHorizon := 12 }

/-- The Realistic scenario of the spec's first concrete example. -/
def realisticScenario : Scenario :=
  { name := "Realistic", enabled := true
    growthRate := JsNum.fin 15, costAdjustment := JsNum.fin 0 }

/-- The Pessimistic scenario of the spec's second concrete example. -/
def pessimisticScenario : Scenario :=
  { name := "Pessimistic", enabled := true
    growthRate := JsNum.fin 8, costAdjustment := JsNum.fin 15 }

/-- The unrounded monthly profit derived from adjusted figures, exactly
as the monthlyProfit const of routes.ts line 571 (and part_001 line 287)
computes it. -/
def Server.monthlyProfitOf (a : Server.AdjustedFigures) : JsNum :=
  a.adjustedMonthlyRevenue - a.adjustedMonthlyFixedCosts -
    (a.adjustedVariableCosts / JsNum.fin 100) * a.adjustedMonthlyRevenue

/-- The unrounded annual profit derived from adjusted figures, exactly
as the annualProfit const of routes.ts lines 561-567 computes it. -/
def Server.annualProfitOf (a : Server.AdjustedFigures) : JsNum :=
  let annualRevenue := a.adjustedMonthlyRevenue * JsNum.fin 12
  let annualFixedCosts := a.adjustedMonthlyFixedCosts * JsNum.fin 12
  let annualVariableCosts := (a.adjustedVariableCosts / JsNum.fin 100) * annualRevenue
  annualRevenue - (annualFixedCosts + annualVariableCosts)

/-- A project whose figures are all zero. -/
def zeroProject : Project :=
  { initialInvestment := JsNum.fin 0
    monthlyFixedCosts := JsNum.fin 0
    variableCosts := JsNum.fin 0
    expectedMonthlyRevenue := JsNum.fin 0
    timeHorizon := 12 }

/-- A value carries at most d decimal digits: a finite value is an
integer divided by 10^d (the non-finite values carry no digits at all). -/
def decimalDigitsAtMost (d : ℕ) : JsNum → Prop
  | JsNum.fin q => ∃ n : ℤ, q = (n : ℚ) / 10 ^ d
  | _ => True

/-- A scenario switched off by the user. -/
def disabledScenario : Scenario :=
  { name := "Realistic", enabled := false
    growthRate := JsNum.fin 15, costAdjustment := JsNum.fin 0 }

/-- A project with zero initial investment and a monthly loss: monthly
profit is -100 while the investment to recover is 0. -/
def zeroInvestmentLossProject : Project :=
  { initialInvestment := JsNum.fin 0
    monthlyFixedCosts := JsNum.fin 100
    variableCosts := JsNum.fin 0
    expectedMonthlyRevenue := JsNum.fin 0
    timeHorizon := 12 }

/-- A neutral scenario (no growth, no cost adjustment). -/
def neutralScenario : Scenario :=
  { name := "Realistic", enabled := true
    growthRate := JsNum.fin 0, costAdjustment := JsNum.fin 0 }

/-- A raw project with every numeric field present. -/
def fullRawProject : RawProject :=
  { initialInvestment := some (JsNum.fin 50000)
    monthlyFixedCosts := some (JsNum.fin 5000)
    variableCosts := some (JsNum.fin 20)
    expectedMonthlyRevenue := some (JsNum.fin 15000) }

/-- A raw scenario whose growthRate field is structurally absent. -/
def missingGrowthScenario : RawScenario :=
  { name := "Realistic", growthRate := none, costAdjustment := some (JsNum.fin 0) }

namespace JsNum

@[simp] theorem fin_add (a b : ℚ) : fin a + fin b = fin (a + b) := rfl

@[simp] theorem fin_neg (a : ℚ) : -(fin a) = fin (-a) := rfl

@[simp] theorem fin_sub (a b : ℚ) : fin a - fin b = fin (a - b) := by
  show (fin a).add (fin b).neg = fin (a - b)
  simp only [neg, add]
  ring_nf

@[simp] theorem fin_mul (a b : ℚ) : fin a * fin b = fin (a * b) := rfl

@[simp] theorem fin_div_of_ne (a : ℚ) {b : ℚ} (h : b ≠ 0) :
    fin a / fin b = fin (a / b) := by
  show (fin a).div (fin b) = fin (a / b)
  simp [div, h]

theorem fin_div_zero_of_pos {a : ℚ} (h : 0 < a) : fin a / fin 0 = inf := by
  show (fin a).div (fin 0) = inf
  simp [div, h]

theorem fin_div_zero_of_neg {a : ℚ} (h : a < 0) : fin a / fin 0 = neginf := by
  show (fin a).div (fin 0) = neginf
  simp [div, h, not_lt_of_lt h]

theorem zero_div_zero : fin 0 / fin 0 = nan := by
  show (fin 0).div (fin 0) = nan
  simp [div]

theorem inf_mul_fin_pos {b : ℚ} (h : 0 < b) : inf * fin b = inf := by
  show inf.mul (fin b) = inf
  simp [mul, h]

theorem neginf_mul_fin_pos {b : ℚ} (h : 0 < b) : neginf * fin b = neginf := by
  show neginf.mul (fin b) = neginf
  simp [mul, h]

@[simp] theorem nan_add (x : JsNum) : nan + x = nan := by cases x <;> rfl

@[simp] theorem add_nan (x : JsNum) : x + nan = nan := by cases x <;> rfl

@[simp] theorem nan_sub (x : JsNum) : nan - x = nan := by cases x <;> rfl

@[simp] theorem sub_nan (x : JsNum) : x - nan = nan := by cases x <;> rfl

@[simp] theorem nan_mul (x : JsNum) : nan * x = nan := by cases x <;> rfl

@[simp] theorem mul_nan (x : JsNum) : x * nan = nan := by cases x <;> rfl

@[simp] theorem nan_div (x : JsNum) : nan / x = nan := by cases x <;> rfl

@[simp] theorem div_nan (x : JsNum) : x / nan = nan := by cases x <;> rfl

@[simp] theorem toFixed_nan (d : ℕ) : nan.toFixed d = nan := rfl

@[simp] theorem toFixed_inf (d : ℕ) : inf.toFixed d = inf := rfl

@[simp] theorem toFixed_neginf (d : ℕ) : neginf.toFixed d = neginf := rfl

/-- Evaluation rule for toFixed on a finite value: if the integer n
satisfies the floor bounds for q * 10^d + 1/2 and n = r * 10^d, then
rounding q to d decimals yields r. -/
theorem toFixed_eval {q r : ℚ} {d : ℕ} (n : ℤ)
    (h₁ : (n : ℚ) ≤ q * 10 ^ d + 1 / 2) (h₂ : q * 10 ^ d + 1 / 2 < n + 1)
    (h₃ : (n : ℚ) = r * 10 ^ d) :
    (fin q).toFixed d = fin r := by
  have hfl : ⌊q * 10 ^ d + 1 / 2⌋ = n := Int.floor_eq_iff.mpr ⟨h₁, by exact_mod_cast h₂⟩
  have h10 : ((10 : ℚ) ^ d) ≠ 0 := by positivity
  simp only [toFixed, hfl, h₃]
  rw [mul_div_assoc, div_self h10, mul_one]

/-- Rounding to d decimal places leaves at most d decimal digits. -/
theorem toFixed_decimalDigitsAtMost (d : ℕ) (x : JsNum) :
    decimalDigitsAtMost d (x.toFixed d) := by
  cases x with
  | fin q => exact ⟨⌊q * 10 ^ d + 1 / 2⌋, rfl⟩
  | nan => trivial
  | inf => trivial
  | neginf => trivial

/-- Rounding a nonpositive finite value yields zero or a negative value. -/
theorem toFixed_nonpos {q : ℚ} (d : ℕ) (h : q ≤ 0) :
    (fin q).toFixed d = fin 0 ∨ ((fin q).toFixed d).isNeg = true := by
  have hb : q * 10 ^ d + 1 / 2 ≤ 1 / 2 := by
    have : q * 10 ^ d ≤ 0 := mul_nonpos_of_nonpos_of_nonneg h (by positivity)
    linarith
  have hhalf : ⌊(1 : ℚ) / 2⌋ = 0 := by
    rw [Int.floor_eq_iff]
    constructor <;> norm_num
  have h2 : ⌊q * 10 ^ d + 1 / 2⌋ ≤ 0 := hhalf ▸ Int.floor_mono hb
  rcases h2.lt_or_eq with hlt | heq
  · right
    simp only [toFixed, isNeg, decide_eq_true_iff]
    apply div_neg_of_neg_of_pos
    · exact_mod_cast hlt
    · positivity
  · left
    simp only [toFixed, heq]
    norm_num

/-- Dividing a finite value by finite zero and scaling by 100 always
produces a non-finite result, before and after rounding. -/
theorem finite_div_zero_scaled_not_finite {x : JsNum} (hx : x.isFinite = true) :
    (((x / fin 0) * fin 100).toFixed 1).isFinite = false := by
  cases x with
  | fin q =>
    rcases lt_trichotomy q 0 with h | h | h
    · rw [fin_div_zero_of_neg h, neginf_mul_fin_pos (by norm_num)]
      rfl
    · subst h
      rw [zero_div_zero, nan_mul]
      rfl
    · rw [fin_div_zero_of_pos h, inf_mul_fin_pos (by norm_num)]
      rfl
  | nan => simp [isFinite] at hx
  | inf => simp [isFinite] at hx
  | neginf => simp [isFinite] at hx

end JsNum

/-- Claim C1: for the spec's two worked examples the per-scenario
pipeline returns exactly the stated values: with the Realistic scenario
the metrics are ROI 211.2, break-even 5.7 months, net profit 105600,
profit margin 51.0 and risk Medium; with the Pessimistic scenario the
adjusted figures are revenue 16200, fixed costs 5750, variable rate 23,
and the month-1 projection is revenue 16200, expenses 9476, profit 6724. -/
theorem claim1_worked_examples :
    ((Server.scenarioCalculation exampleProject realisticScenario).financialMetrics.roi =
        JsNum.fin (1056 / 5) ∧
      (Server.scenarioCalculation exampleProject realisticScenario).financialMetrics.breakEven =
        JsNum.fin (57 / 10) ∧
      (Server.scenarioCalculation exampleProject realisticScenario).financialMetrics.netProfit =
        JsNum.fin 105600 ∧
      (Server.scenarioCalculation exampleProject realisticScenario).financialMetrics.profitMargin =
        JsNum.fin 51 ∧
      (Server.scenarioCalculation exampleProject realisticScenario).financialMetrics.riskLevel =
        RiskLevel.Medium) ∧
    (Server.adjustFigures exampleProject pessimisticScenario =
        { adjustedMonthlyRevenue := JsNum.fin 16200
          adjustedMonthlyFixedCosts := JsNum.fin 5750
          adjustedVariableCosts := JsNum.fin 23 } ∧
      (Server.scenarioCalculation exampleProject pessimisticScenario).monthlyProjections[0]? =
        some { month := 1, revenue := JsNum.fin 16200
               expenses := JsNum.fin 9476, profit := JsNum.fin 6724 }) := by
  have ha : Server.adjustFigures exampleProject pessimisticScenario =
      { adjustedMonthlyRevenue := JsNum.fin 16200
        adjustedMonthlyFixedCosts := JsNum.fin 5750
        adjustedVariableCosts := JsNum.fin 23 } := by
    norm_num [Server.adjustFigures, exampleProject, pessimisticScenario]
  refine ⟨⟨?_, ?_, ?_, ?_, ?_⟩, ha, ?_⟩
  · norm_num [Server.scenarioCalculation, Server.adjustFigures, exampleProject, realisticScenario]
    exact JsNum.toFixed_eval 2112 (by norm_num) (by norm_num) (by norm_num)
  · norm_num [Server.scenarioCalculation, Server.adjustFigures, exampleProject, realisticScenario]
    exact JsNum.toFixed_eval 57 (by norm_num) (by norm_num) (by norm_num)
  · norm_num [Server.scenarioCalculation, Server.adjustFigures, exampleProject, realisticScenario]
    exact JsNum.toFixed_eval 10560000 (by norm_num) (by norm_num) (by norm_num)
  · norm_num [Server.scenarioCalculation, Server.adjustFigures, exampleProject, realisticScenario]
    exact JsNum.toFixed_eval 510 (by norm_num) (by norm_num) (by norm_num)
  · rfl
  · show (Server.monthlyProjectionsOf (Server.adjustFigures exampleProject pessimisticScenario))[0]? = _
    rw [ha]
    norm_num [Server.monthlyProjectionsOf, List.getElem?_map, List.getElem?_range]
    exact ⟨JsNum.toFixed_eval 1620000 (by norm_num) (by norm_num) (by norm_num),
      JsNum.toFixed_eval 947600 (by norm_num) (by norm_num) (by norm_num),
      JsNum.toFixed_eval 672400 (by norm_num) (by norm_num) (by norm_num)⟩

/-- Claim C2, counterexample: a scenario with enabled = false does appear
in the analysis bundle's scenario list — the route maps the calculation
over every stored scenario without filtering on enabled. -/
theorem claim2_counterexample :
    disabledScenario.enabled = false ∧
    (Server.analysisBundle exampleProject [disabledScenario]).scenarios.map
      ScenarioCalculation.scenario = [disabledScenario] :=
  ⟨rfl, rfl⟩

/-- Claim C2, amended: the aggregation includes every scenario of the
input list, in input order, regardless of the enabled flag — the bundle's
scenario list is exactly the input list mapped through the per-scenario
calculation, and projecting the scenario component back out returns the
input list unchanged. -/
theorem claim2_amended_no_enabled_filter (p : Project) (ss : List Scenario) :
    (Server.analysisBundle p ss).scenarios = ss.map (Server.scenarioCalculation p) ∧
    (Server.analysisBundle p ss).scenarios.map ScenarioCalculation.scenario = ss := by
  refine ⟨rfl, ?_⟩
  show (ss.map (Server.scenarioCalculation p)).map ScenarioCalculation.scenario = ss
  rw [List.map_map]
  have h : ScenarioCalculation.scenario ∘ Server.scenarioCalculation p = id :=
    funext fun s => rfl
  rw [h, List.map_id]

/-- Claim C3: the projection generator always returns exactly 12 entries
with 1-based months, independent of timeHorizon, and entry i (0-based)
is the rounded triple revenue = adjustedMonthlyRevenue * (1 + 0.02*i),
expenses = adjustedMonthlyFixedCosts + (variableRate/100) * revenue,
profit = revenue - expenses, each rounded to two decimals at emission. -/
theorem claim3_projection_shape (a : Server.AdjustedFigures) (p : Project) (s : Scenario)
    (t : Int) (i : ℕ) (h : i < 12) :
    (Server.monthlyProjectionsOf a).length = 12 ∧
    (Server.monthlyProjectionsOf a)[i]? = some
      { month := i + 1
        revenue := (a.adjustedMonthlyRevenue * JsNum.fin (1 + 2 / 100 * (i : ℚ))).toFixed 2
        expenses := (a.adjustedMonthlyFixedCosts + (a.adjustedVariableCosts / JsNum.fin 100) *
          (a.adjustedMonthlyRevenue * JsNum.fin (1 + 2 / 100 * (i : ℚ)))).toFixed 2
        profit := (a.adjustedMonthlyRevenue * JsNum.fin (1 + 2 / 100 * (i : ℚ)) -
          (a.adjustedMonthlyFixedCosts + (a.adjustedVariableCosts / JsNum.fin 100) *
            (a.adjustedMonthlyRevenue * JsNum.fin (1 + 2 / 100 * (i : ℚ))))).toFixed 2 } ∧
    (Server.scenarioCalculation { p with timeHorizon := t } s).monthlyProjections =
      (Server.scenarioCalculation p s).monthlyProjections := by
  refine ⟨by simp [Server.monthlyProjectionsOf], ?_, rfl⟩
  simp [Server.monthlyProjectionsOf, List.getElem?_map, List.getElem?_range, h]

/-- Witness for claim C3 at the Pessimistic worked example, month index 0
and an arbitrary alternative time horizon of 7. -/
theorem claim3_witness :
    (Server.monthlyProjectionsOf (Server.adjustFigures exampleProject pessimisticScenario)).length = 12 ∧
    (Server.monthlyProjectionsOf (Server.adjustFigures exampleProject pessimisticScenario))[0]? = some
      { month := 0 + 1
        revenue := ((Server.adjustFigures exampleProject pessimisticScenario).adjustedMonthlyRevenue *
          JsNum.fin (1 + 2 / 100 * ((0 : ℕ) : ℚ))).toFixed 2
        expenses := ((Server.adjustFigures exampleProject pessimisticScenario).adjustedMonthlyFixedCosts +
          ((Server.adjustFigures exampleProject pessimisticScenario).adjustedVariableCosts / JsNum.fin 100) *
          ((Server.adjustFigures exampleProject pessimisticScenario).adjustedMonthlyRevenue *
            JsNum.fin (1 + 2 / 100 * ((0 : ℕ) : ℚ)))).toFixed 2
        profit := ((Server.adjustFigures exampleProject pessimisticScenario).adjustedMonthlyRevenue *
          JsNum.fin (1 + 2 / 100 * ((0 : ℕ) : ℚ)) -
          ((Server.adjustFigures exampleProject pessimisticScenario).adjustedMonthlyFixedCosts +
            ((Server.adjustFigures exampleProject pessimisticScenario).adjustedVariableCosts / JsNum.fin 100) *
            ((Server.adjustFigures exampleProject pessimisticScenario).adjustedMonthlyRevenue *
              JsNum.fin (1 + 2 / 100 * ((0 : ℕ) : ℚ))))).toFixed 2 } ∧
    (Server.scenarioCalculation { exampleProject with timeHorizon := 7 } pessimisticScenario).monthlyProjections =
      (Server.scenarioCalculation exampleProject pessimisticScenario).monthlyProjections :=
  claim3_projection_shape (Server.adjustFigures exampleProject pessimisticScenario)
    exampleProject pessimisticScenario 7 0 (by decide)

/-- Claim C4, counterexample: with initialInvestment = 0, fixed costs 100
and zero revenue, the unrounded monthly profit is -100 (so the claim's
condition monthlyProfit <= 0 holds), yet the computed break-even
0 / (-100) is the finite, non-negative value 0 — not non-finite or
negative as the claim states. -/
theorem claim4_counterexample :
    Server.monthlyProfitOf (Server.adjustFigures zeroInvestmentLossProject neutralScenario) =
      JsNum.fin (-100) ∧
    (Server.scenarioCalculation zeroInvestmentLossProject neutralScenario).financialMetrics.breakEven =
      JsNum.fin 0 ∧
    (JsNum.fin 0).isFinite = true ∧
    (JsNum.fin 0).isNeg = false := by
  refine ⟨?_, ?_, rfl, rfl⟩
  · norm_num [Server.monthlyProfitOf, Server.adjustFigures, zeroInvestmentLossProject,
      neutralScenario]
  · norm_num [Server.scenarioCalculation, Server.adjustFigures, zeroInvestmentLossProject,
      neutralScenario]
    exact JsNum.toFixed_eval 0 (by norm_num) (by norm_num) (by norm_num)

/-- Claim C4, amended: for decimal inputs with initialInvestment >= 0 (the
data-model range), (a) initialInvestment = 0 makes the returned ROI
non-finite, returned rather than thrown; (b) monthlyProfit <= 0 makes the
returned breakEvenMonths non-finite, negative, or zero — zero arising
exactly in the corner initialInvestment = 0 with monthlyProfit < 0. -/
theorem claim4_amended (inv f v r g c m : ℚ) (name : String) (e : Bool) (t : Int)
    (hinv : 0 ≤ inv)
    (hm : Server.monthlyProfitOf (Server.adjustFigures
        ⟨JsNum.fin inv, JsNum.fin f, JsNum.fin v, JsNum.fin r, t⟩
        ⟨name, e, JsNum.fin g, JsNum.fin c⟩) = JsNum.fin m) :
    (inv = 0 →
      ((Server.scenarioCalculation ⟨JsNum.fin inv, JsNum.fin f, JsNum.fin v, JsNum.fin r, t⟩
        ⟨name, e, JsNum.fin g, JsNum.fin c⟩).financialMetrics.roi).isFinite = false) ∧
    (m ≤ 0 →
      ((Server.scenarioCalculation ⟨JsNum.fin inv, JsNum.fin f, JsNum.fin v, JsNum.fin r, t⟩
          ⟨name, e, JsNum.fin g, JsNum.fin c⟩).financialMetrics.breakEven).isFinite = false ∨
        ((Server.scenarioCalculation ⟨JsNum.fin inv, JsNum.fin f, JsNum.fin v, JsNum.fin r, t⟩
          ⟨name, e, JsNum.fin g, JsNum.fin c⟩).financialMetrics.breakEven).isNeg = true ∨
        (Server.scenarioCalculation ⟨JsNum.fin inv, JsNum.fin f, JsNum.fin v, JsNum.fin r, t⟩
          ⟨name, e, JsNum.fin g, JsNum.fin c⟩).financialMetrics.breakEven = JsNum.fin 0) := by
  constructor
  · intro h0
    subst h0
    have hroi : (Server.scenarioCalculation ⟨JsNum.fin 0, JsNum.fin f, JsNum.fin v, JsNum.fin r, t⟩
        ⟨name, e, JsNum.fin g, JsNum.fin c⟩).financialMetrics.roi =
        ((Server.annualProfitOf (Server.adjustFigures
            ⟨JsNum.fin 0, JsNum.fin f, JsNum.fin v, JsNum.fin r, t⟩
            ⟨name, e, JsNum.fin g, JsNum.fin c⟩) / JsNum.fin 0) * JsNum.fin 100).toFixed 1 := rfl
    rw [hroi]
    apply JsNum.finite_div_zero_scaled_not_finite
    norm_num [Server.annualProfitOf, Server.adjustFigures, JsNum.isFinite]
  · intro hm0
    have hbe : (Server.scenarioCalculation ⟨JsNum.fin inv, JsNum.fin f, JsNum.fin v, JsNum.fin r, t⟩
        ⟨name, e, JsNum.fin g, JsNum.fin c⟩).financialMetrics.breakEven =
        (JsNum.fin inv / Server.monthlyProfitOf (Server.adjustFigures
          ⟨JsNum.fin inv, JsNum.fin f, JsNum.fin v, JsNum.fin r, t⟩
          ⟨name, e, JsNum.fin g, JsNum.fin c⟩)).toFixed 1 := rfl
    rw [hbe, hm]
    rcases hm0.lt_or_eq with hlt | heq
    · rw [JsNum.fin_div_of_ne _ (ne_of_lt hlt)]
      have hx : inv / m ≤ 0 := div_nonpos_of_nonneg_of_nonpos hinv hlt.le
      rcases JsNum.toFixed_nonpos 1 hx with h | h
      · right; right; exact h
      · right; left; exact h
    · subst heq
      rcases hinv.lt_or_eq with hpos | hzero
      · rw [JsNum.fin_div_zero_of_pos hpos]
        left; rfl
      · rw [← hzero, JsNum.zero_div_zero]
        left; rfl

/-- Witness for claim C4 amended: a zero-investment loss-making project
exercises branch (a), a positive-investment loss-making project exercises
branch (b). -/
theorem claim4_amended_witness :
    ((Server.scenarioCalculation ⟨JsNum.fin 0, JsNum.fin 100, JsNum.fin 0, JsNum.fin 0, 12⟩
      ⟨"Realistic", true, JsNum.fin 0, JsNum.fin 0⟩).financialMetrics.roi).isFinite = false ∧
    (((Server.scenarioCalculation ⟨JsNum.fin 50000, JsNum.fin 100000, JsNum.fin 0, JsNum.fin 0, 12⟩
        ⟨"Realistic", true, JsNum.fin 0, JsNum.fin 0⟩).financialMetrics.breakEven).isFinite = false ∨
      ((Server.scenarioCalculation ⟨JsNum.fin 50000, JsNum.fin 100000, JsNum.fin 0, JsNum.fin 0, 12⟩
        ⟨"Realistic", true, JsNum.fin 0, JsNum.fin 0⟩).financialMetrics.breakEven).isNeg = true ∨
      (Server.scenarioCalculation ⟨JsNum.fin 50000, JsNum.fin 100000, JsNum.fin 0, JsNum.fin 0, 12⟩
        ⟨"Realistic", true, JsNum.fin 0, JsNum.fin 0⟩).financialMetrics.breakEven = JsNum.fin 0) :=
  ⟨(claim4_amended 0 100 0 0 0 0 (-100) "Realistic" true 12 (by norm_num)
      (by norm_num [Server.monthlyProfitOf, Server.adjustFigures])).1 rfl,
    (claim4_amended 50000 100000 0 0 0 0 (-100000) "Realistic" true 12 (by norm_num)
      (by norm_num [Server.monthlyProfitOf, Server.adjustFigures])).2 (by norm_num)⟩

/-- Claim C5: the cost breakdown in the analysis bundle is computed only
from the base project inputs — identical for every scenario list — and
equals initial investment unchanged, monthly fixed costs times 12, and
expected revenue times the variable rate over 100 times 12. -/
theorem claim5_breakdown_scenario_independent (p : Project) (ss ss2 : List Scenario) :
    (Server.analysisBundle p ss).costBreakdown = (Server.analysisBundle p ss2).costBreakdown ∧
    (Server.analysisBundle p ss).costBreakdown =
      { initialInvestment := p.initialInvestment
        fixedCosts := p.monthlyFixedCosts * JsNum.fin 12
        variableCosts := p.expectedMonthlyRevenue * (p.variableCosts / JsNum.fin 100) * JsNum.fin 12 } :=
  ⟨rfl, rfl⟩

/-- Claim C6: the risk level of a scenario's metrics is a fixed static
function of the scenario's name alone (Optimistic to Low, Realistic to
Medium, anything else to High) and does not depend on the project. -/
theorem claim6_risk_by_name_only (p p2 : Project) (s : Scenario) :
    (Server.scenarioCalculation p s).financialMetrics.riskLevel =
      (if s.name = "Optimistic" then RiskLevel.Low
        else if s.name = "Realistic" then RiskLevel.Medium
        else RiskLevel.High) ∧
    (Server.scenarioCalculation p s).financialMetrics.riskLevel =
      (Server.scenarioCalculation p2 s).financialMetrics.riskLevel :=
  ⟨rfl, rfl⟩

/-- Claim C7: for every project and scenario, the client preview
functions return exactly the same metrics, projections and cost
breakdown as the server-side computation in the analysis route. -/
theorem claim7_client_server_agree (p : Project) (s : Scenario) :
    Client.calculateFinancialMetrics p s = (Server.scenarioCalculation p s).financialMetrics ∧
    Client.generateMonthlyProjections p s = (Server.scenarioCalculation p s).monthlyProjections ∧
    Client.generateCostBreakdown p = Server.costBreakdown p :=
  ⟨rfl, rfl, rfl⟩

/-- Claim C8: every emitted metric carries at most one decimal digit
(roi, breakEven, profitMargin) or two (netProfit), every projection
field carries at most two, and rounding happens only at the output
boundary: the emitted breakEven is the rounding of the quotient by the
unrounded monthly profit, and the projection list is generated from the
unrounded adjusted figures. -/
theorem claim8_rounding_boundary (p : Project) (s : Scenario) (e : MonthlyProjection)
    (he : e ∈ (Server.scenarioCalculation p s).monthlyProjections) :
    decimalDigitsAtMost 1 (Server.scenarioCalculation p s).financialMetrics.roi ∧
    decimalDigitsAtMost 1 (Server.scenarioCalculation p s).financialMetrics.breakEven ∧
    decimalDigitsAtMost 1 (Server.scenarioCalculation p s).financialMetrics.profitMargin ∧
    decimalDigitsAtMost 2 (Server.scenarioCalculation p s).financialMetrics.netProfit ∧
    (decimalDigitsAtMost 2 e.revenue ∧ decimalDigitsAtMost 2 e.expenses ∧
      decimalDigitsAtMost 2 e.profit) ∧
    (Server.scenarioCalculation p s).financialMetrics.breakEven =
      (p.initialInvestment / Server.monthlyProfitOf (Server.adjustFigures p s)).toFixed 1 ∧
    (Server.scenarioCalculation p s).monthlyProjections =
      Server.monthlyProjectionsOf (Server.adjustFigures p s) := by
  refine ⟨JsNum.toFixed_decimalDigitsAtMost 1 _, JsNum.toFixed_decimalDigitsAtMost 1 _,
    JsNum.toFixed_decimalDigitsAtMost 1 _, JsNum.toFixed_decimalDigitsAtMost 2 _, ?_, rfl, rfl⟩
  have he2 : e ∈ Server.monthlyProjectionsOf (Server.adjustFigures p s) := he
  simp only [Server.monthlyProjectionsOf] at he2
  rcases List.mem_map.mp he2 with ⟨i, _, rfl⟩
  exact ⟨JsNum.toFixed_decimalDigitsAtMost 2 _, JsNum.toFixed_decimalDigitsAtMost 2 _,
    JsNum.toFixed_decimalDigitsAtMost 2 _⟩

/-- Witness for claim C8 at the all-zero project with the neutral
scenario, taking the first projection entry. -/
theorem claim8_witness :
    decimalDigitsAtMost 1 (Server.scenarioCalculation zeroProject neutralScenario).financialMetrics.roi ∧
    decimalDigitsAtMost 1 (Server.scenarioCalculation zeroProject neutralScenario).financialMetrics.breakEven ∧
    decimalDigitsAtMost 1 (Server.scenarioCalculation zeroProject neutralScenario).financialMetrics.profitMargin ∧
    decimalDigitsAtMost 2 (Server.scenarioCalculation zeroProject neutralScenario).financialMetrics.netProfit ∧
    (decimalDigitsAtMost 2 (MonthlyProjection.mk 1 (JsNum.fin 0) (JsNum.fin 0) (JsNum.fin 0)).revenue ∧
      decimalDigitsAtMost 2 (MonthlyProjection.mk 1 (JsNum.fin 0) (JsNum.fin 0) (JsNum.fin 0)).expenses ∧
      decimalDigitsAtMost 2 (MonthlyProjection.mk 1 (JsNum.fin 0) (JsNum.fin 0) (JsNum.fin 0)).profit) ∧
    (Server.scenarioCalculation zeroProject neutralScenario).financialMetrics.breakEven =
      (zeroProject.initialInvestment /
        Server.monthlyProfitOf (Server.adjustFigures zeroProject neutralScenario)).toFixed 1 ∧
    (Server.scenarioCalculation zeroProject neutralScenario).monthlyProjections =
      Server.monthlyProjectionsOf (Server.adjustFigures zeroProject neutralScenario) := by
  have h0 : (Server.monthlyProjectionsOf (Server.adjustFigures zeroProject neutralScenario))[0]? =
      some (MonthlyProjection.mk 1 (JsNum.fin 0) (JsNum.fin 0) (JsNum.fin 0)) := by
    norm_num [Server.monthlyProjectionsOf, Server.adjustFigures, zeroProject, neutralScenario,
      List.getElem?_map, List.getElem?_range]
    exact JsNum.toFixed_eval 0 (by norm_num) (by norm_num) (by norm_num)
  exact claim8_rounding_boundary zeroProject neutralScenario
    (MonthlyProjection.mk 1 (JsNum.fin 0) (JsNum.fin 0) (JsNum.fin 0)) (List.getElem?_mem h0)

/-- Claim C9, counterexample: with the growthRate field structurally
absent, the engine does not raise an invalid-input error — it returns a
normal FinancialCalculation record whose numeric fields are all NaN
(Number(undefined) = NaN propagated through the arithmetic) and whose
risk level is still computed from the name. -/
theorem claim9_counterexample :
    (calculateFinancialMetricsRaw fullRawProject missingGrowthScenario).roi = JsNum.nan ∧
    (calculateFinancialMetricsRaw fullRawProject missingGrowthScenario).breakEven = JsNum.nan ∧
    (calculateFinancialMetricsRaw fullRawProject missingGrowthScenario).netProfit = JsNum.nan ∧
    (calculateFinancialMetricsRaw fullRawProject missingGrowthScenario).profitMargin = JsNum.nan ∧
    (calculateFinancialMetricsRaw fullRawProject missingGrowthScenario).riskLevel =
      RiskLevel.Medium := by
  refine ⟨?_, ?_, ?_, ?_, rfl⟩ <;>
    norm_num [calculateFinancialMetricsRaw, Client.calculateFinancialMetrics, jsNumber,
      fullRawProject, missingGrowthScenario]

/-- Claim C9, amended: the engine never raises at all — it is a total
function of its (possibly field-absent) inputs; a structurally absent
numeric field is coerced to NaN by Number() and propagates to a NaN ROI
instead of an error. -/
theorem claim9_amended_absent_field_gives_nan (rp : RawProject) (rs : RawScenario)
    (h : rp.initialInvestment = none ∨ rp.monthlyFixedCosts = none ∨ rp.variableCosts = none ∨
      rp.expectedMonthlyRevenue = none ∨ rs.growthRate = none ∨ rs.costAdjustment = none) :
    (calculateFinancialMetricsRaw rp rs).roi = JsNum.nan := by
  rcases h with h | h | h | h | h | h <;>
    simp [calculateFinancialMetricsRaw, Client.calculateFinancialMetrics, jsNumber, h]

/-- Witness for claim C9 amended at the concrete raw inputs with an
absent growthRate. -/
theorem claim9_amended_witness :
    (calculateFinancialMetricsRaw fullRawProject missingGrowthScenario).roi = JsNum.nan :=
  claim9_amended_absent_field_gives_nan fullRawProject missingGrowthScenario
    (Or.inr (Or.inr (Or.inr (Or.inr (Or.inl rfl)))))

/-- Claim C10: partial updates do not preserve omitted fields — an
updateScenario call omitting growthRate or costAdjustment overwrites
them with "0" (so toggling only enabled resets both rates), and an
updateProject call omitting name, goal, industry or a numeric field
overwrites it with its default. -/
theorem claim10_partial_update_overwrites (ss : StoredScenario) (su : ScenarioUpdate)
    (sp : StoredProject) (pu : ProjectUpdate) (b : Bool) :
    (su.growthRate = none → (updateScenario ss su).growthRate = "0") ∧
    (su.costAdjustment = none → (updateScenario ss su).costAdjustment = "0") ∧
    (updateScenario ss ⟨none, some b, none, none⟩ =
      { name := ss.name, enabled := b, growthRate := "0", costAdjustment := "0" }) ∧
    (pu.name = none → (updateProject sp pu).name = "Untitled Project") ∧
    (pu.goal = none → (updateProject sp pu).goal = "No goal specified") ∧
    (pu.industry = none → (updateProject sp pu).industry = "Other") ∧
    (pu.initialInvestment = none → (updateProject sp pu).initialInvestment = "0") ∧
    (pu.monthlyFixedCosts = none → (updateProject sp pu).monthlyFixedCosts = "0") ∧
    (pu.variableCosts = none → (updateProject sp pu).variableCosts = "0") ∧
    (pu.expectedMonthlyRevenue = none → (updateProject sp pu).expectedMonthlyRevenue = "0") := by
  refine ⟨fun h => ?_, fun h => ?_, ?_, fun h => ?_, fun h => ?_, fun h => ?_, fun h => ?_,
    fun h => ?_, fun h => ?_, fun h => ?_⟩ <;>
    simp [updateScenario, transformScenarioData, updateProject, transformProjectData,
      jsOrElse, *]

/-- Witness for claim C10: a stored scenario whose enabled flag alone is
toggled loses both rates, and a stored project updated with an empty
payload is reset to all defaults. -/
theorem claim10_witness :
    (updateScenario ⟨"Optimistic", true, "25", "-5"⟩ ⟨none, some false, none, none⟩).growthRate = "0" ∧
    (updateScenario ⟨"Optimistic", true, "25", "-5"⟩ ⟨none, some false, none, none⟩).costAdjustment = "0" ∧
    (updateScenario ⟨"Optimistic", true, "25", "-5"⟩ ⟨none, some false, none, none⟩ =
      { name := "Optimistic", enabled := false, growthRate := "0", costAdjustment := "0" }) ∧
    (updateProject ⟨"P", "G", 24, "Tech", "1", "2", "3", "4"⟩
      ⟨none, none, none, none, none, none, none, none⟩).name = "Untitled Project" ∧
    (updateProject ⟨"P", "G", 24, "Tech", "1", "2", "3", "4"⟩
      ⟨none, none, none, none, none, none, none, none⟩).goal = "No goal specified" ∧
    (updateProject ⟨"P", "G", 24, "Tech", "1", "2", "3", "4"⟩
      ⟨none, none, none, none, none, none, none, none⟩).industry = "Other" ∧
    (updateProject ⟨"P", "G", 24, "Tech", "1", "2", "3", "4"⟩
      ⟨none, none, none, none, none, none, none, none⟩).initialInvestment = "0" ∧
    (updateProject ⟨"P", "G", 24, "Tech", "1", "2", "3", "4"⟩
      ⟨none, none, none, none, none, none, none, none⟩).monthlyFixedCosts = "0" ∧
    (updateProject ⟨"P", "G", 24, "Tech", "1", "2", "3", "4"⟩
      ⟨none, none, none, none, none, none, none, none⟩).variableCosts = "0" ∧
    (updateProject ⟨"P", "G", 24, "Tech", "1", "2", "3", "4"⟩
      ⟨none, none, none, none, none, none, none, none⟩).expectedMonthlyRevenue = "0" := by
  have h := claim10_partial_update_overwrites ⟨"Optimistic", true, "25", "-5"⟩
    ⟨none, some false, none, none⟩ ⟨"P", "G", 24, "Tech", "1", "2", "3", "4"⟩
    ⟨none, none, none, none, none, none, none, none⟩ false
  exact ⟨h.1 rfl, h.2.1 rfl, h.2.2.1, h.2.2.2.1 rfl, h.2.2.2.2.1 rfl, h.2.2.2.2.2.1 rfl,
    h.2.2.2.2.2.2.1 rfl, h.2.2.2.2.2.2.2.1 rfl, h.2.2.2.2.2.2.2.2.1 rfl,
    h.2.2.2.2.2.2.2.2.2 rfl⟩
